import Mathlib

/-!
# CodeWithUmam: the product handlers

A shallow embedding of `internal/models/models.go` and
`internal/handlers/handlers.go`, with the route table of `cmd/api/main.go`.

* `float64` prices are modelled as rationals: every value the JSON decoder can
  produce is a finite float, hence a rational number.
* `int` is the 64-bit Go `int`; `time.Time` is an uninterpreted stamp.
* `*sql.DB` is an arbitrary state-passing storage `DB σ`; every handler returns
  its response together with the storage calls it issued, in order.
* The `binding:"..."` struct tags are kept as data and interpreted by a model
  of the tag semantics of `go-playground/validator`, the validator behind
  `ShouldBindJSON`.
-/

namespace CodeWithUmam

/-! ## `net/http` status codes -/

abbrev StatusOK : Nat := 200
abbrev StatusCreated : Nat := 201
abbrev StatusBadRequest : Nat := 400
abbrev StatusNotFound : Nat := 404
abbrev StatusInternalServerError : Nat := 500

/-! ## `internal/models` -/

/-- Stand-in for `time.Time`. -/
abbrev Time := Nat

/-- The struct `models.Product`. -/
structure Product where
  ID : Int
  Name : String
  Price : ℚ
  Stock : Int
  CreatedAt : Time
  UpdatedAt : Time
deriving DecidableEq

/-- The struct `models.CreateProductRequest`. -/
structure CreateProductRequest where
  Name : String
  Price : ℚ
  Stock : Int
deriving DecidableEq

/-- The struct `models.UpdateProductRequest`; a nil pointer is `none`. -/
structure UpdateProductRequest where
  Name : Option String
  Price : Option ℚ
  Stock : Option Int
deriving DecidableEq

/-! ## Binding tags -/

/-- One item of a `binding:"..."` struct tag. -/
inductive Tag where
  | required
  | omitempty
  | min (p : Int)
  | max (p : Int)
  | gt (p : Int)
  | gte (p : Int)
deriving DecidableEq

/-- The value of a validated field, by kind. -/
inductive FieldVal where
  | str (s : String)
  | float (f : ℚ)
  | int (i : Int)
deriving DecidableEq

/-- A struct field as the validator sees it: a plain value or a pointer. -/
inductive Field where
  | value (v : FieldVal)
  | ptr (p : Option FieldVal)
deriving DecidableEq

/-- Whether the value is the zero value of its kind. -/
def FieldVal.isZero : FieldVal → Bool
  | .str s => s.length == 0
  | .float f => f == 0
  | .int i => i == 0

/-- The validator's `hasValue`: a dereferenced non-nil pointer always has a
value, a plain field has one when it is not the zero value. -/
def hasValue (fldIsPointer : Bool) (v : FieldVal) : Bool :=
  fldIsPointer || !v.isZero

/-- One tag applied to a value: strings compare their rune count with the
parameter, numbers compare their value. -/
def checkTag (fldIsPointer : Bool) : Tag → FieldVal → Bool
  | .required, v => hasValue fldIsPointer v
  | .omitempty, _ => true
  | .min p, .str s => decide (p ≤ (s.length : Int))
  | .min p, .float f => decide ((p : ℚ) ≤ f)
  | .min p, .int i => decide (p ≤ i)
  | .max p, .str s => decide ((s.length : Int) ≤ p)
  | .max p, .float f => decide (f ≤ (p : ℚ))
  | .max p, .int i => decide (i ≤ p)
  | .gt p, .str s => decide (p < (s.length : Int))
  | .gt p, .float f => decide ((p : ℚ) < f)
  | .gt p, .int i => decide (p < i)
  | .gte p, .str s => decide (p ≤ (s.length : Int))
  | .gte p, .float f => decide ((p : ℚ) ≤ f)
  | .gte p, .int i => decide (p ≤ i)

/-- The tags of a field run left to right on its value; the result is the first
tag that fails. `omitempty` ends the run without error on a field that has no
value. -/
def runTags (fldIsPointer : Bool) (v : FieldVal) : List Tag → Option Tag
  | [] => none
  | .omitempty :: rest =>
    if hasValue fldIsPointer v then runTags fldIsPointer v rest else none
  | t :: rest =>
    if checkTag fldIsPointer t v then runTags fldIsPointer v rest else some t

/-- The validator's `traverseField`: a non-nil pointer is dereferenced, a nil
pointer passes when its tags are empty or start with `omitempty` and fails its
first tag otherwise. -/
def traverseField : Field → List Tag → Option Tag
  | .value v, tags => runTags false v tags
  | .ptr (some v), tags => runTags true v tags
  | .ptr none, [] => none
  | .ptr none, .omitempty :: _ => none
  | .ptr none, t :: _ => some t

/-- A failed field: its name and the tag it failed on. -/
structure FieldError where
  field : String
  tag : Tag
deriving DecidableEq

/-- Validation of a struct: every tagged field in declaration order. -/
def validateStruct : List (String × Field × List Tag) → List FieldError
  | [] => []
  | (name, fld, tags) :: rest =>
    match traverseField fld tags with
    | some t => ⟨name, t⟩ :: validateStruct rest
    | none => validateStruct rest

/-- The tagged fields of `CreateProductRequest`:
`required,min=1,max=100`, `required,gt=0` and `gte=0`. -/
def CreateProductRequest.fields (req : CreateProductRequest) :
    List (String × Field × List Tag) :=
  [ ("Name", .value (.str req.Name), [.required, .min 1, .max 100]),
    ("Price", .value (.float req.Price), [.required, .gt 0]),
    ("Stock", .value (.int req.Stock), [.gte 0]) ]

/-- The tagged fields of `UpdateProductRequest`:
`omitempty,min=1,max=100`, `omitempty,gt=0` and `omitempty,gte=0`. -/
def UpdateProductRequest.fields (req : UpdateProductRequest) :
    List (String × Field × List Tag) :=
  [ ("Name", .ptr (req.Name.map .str), [.omitempty, .min 1, .max 100]),
    ("Price", .ptr (req.Price.map .float), [.omitempty, .gt 0]),
    ("Stock", .ptr (req.Stock.map .int), [.omitempty, .gte 0]) ]

/-- The error of `ShouldBindJSON`: the JSON decoder's, or the validator's. -/
inductive BindError where
  | decode (msg : String)
  | validation (errs : List FieldError)
deriving DecidableEq

/-- The call `c.ShouldBindJSON(&req)` for a struct with the given tagged
fields: `decoded` is what the JSON decoder made of the body. -/
def ShouldBindJSON {α : Type} (fields : α → List (String × Field × List Tag))
    (decoded : Except String α) : Except BindError α :=
  match decoded with
  | .error msg => .error (.decode msg)
  | .ok req =>
    match validateStruct (fields req) with
    | [] => .ok req
    | e :: es => .error (.validation (e :: es))

/-- The keys of a JSON object that a product request reads; an omitted key
(or `null`) is `none`. -/
structure ProductJSON where
  name : Option String
  price : Option ℚ
  stock : Option Int
deriving DecidableEq

/-- The struct `encoding/json` fills for `CreateProductRequest`: a key the
body omits leaves the zero value. -/
def decodeCreate (j : ProductJSON) : CreateProductRequest :=
  ⟨j.name.getD "", j.price.getD 0, j.stock.getD 0⟩

/-! ## `strconv` -/

/-- The digits of a decimal number, most significant first, folded into
`acc`; `none` at the first byte that is no digit. -/
def parseDigits : List Char → Nat → Option Nat
  | [], acc => some acc
  | c :: cs, acc =>
    if c.isDigit then parseDigits cs (acc * 10 + (c.toNat - 48)) else none

/-- The call `strconv.Atoi` on a 64-bit platform: an optional sign, then at
least one decimal digit and nothing else, the value within `int64`. -/
def Atoi (s : String) : Option Int :=
  match s.toList with
  | [] => none
  | c :: cs =>
    let neg := c == '-'
    let ds := if c == '-' || c == '+' then cs else c :: cs
    if ds.isEmpty then none
    else
      match parseDigits ds 0 with
      | none => none
      | some n =>
        if neg then
          if 2 ^ 63 < n then none else some (-(n : Int))
        else
          if 2 ^ 63 ≤ n then none else some (n : Int)

/-- The call `strconv.Itoa`. -/
def Itoa (i : Int) : String := toString i

/-! ## Storage -/

/-- A value bound to a statement: an element of `[]interface{}`. -/
inductive Value where
  | str (s : String)
  | float (f : ℚ)
  | int (i : Int)
deriving DecidableEq

/-- An error of `database/sql`: the sentinel `sql.ErrNoRows`, or any other
error with its text. -/
inductive DbError where
  | ErrNoRows
  | other (msg : String)
deriving DecidableEq

/-- What `*sql.Rows` yields to the loop of `GetAllProducts`: the outcome of
`Scan` on each row `Next` advances to, then the value of `rows.Err()`. -/
structure Rows where
  scans : List (Except DbError Product)
  err : Option DbError

/-- The handle `*sql.DB` over a storage state `σ`. `QueryRow(...).Scan(...)`
is one operation per shape of destination: a whole product, the `EXISTS`
flag, the `RETURNING id, created_at, updated_at` triple. `Exec` yields the
affected-row count, the value the handlers read with `RowsAffected` (whose own
error they discard). -/
structure DB (σ : Type) where
  Query : σ → String → List Value → σ × Except DbError Rows
  QueryRowProduct : σ → String → List Value → σ × Except DbError Product
  QueryRowBool : σ → String → List Value → σ × Except DbError Bool
  QueryRowReturning : σ → String → List Value → σ × Except DbError (Int × Time × Time)
  Exec : σ → String → List Value → σ × Except DbError Int

/-- A storage call as issued by a handler. -/
inductive DbCall where
  | Query (query : String) (args : List Value)
  | QueryRow (query : String) (args : List Value)
  | Exec (query : String) (args : List Value)
deriving DecidableEq

/-! ## Responses -/

/-- The JSON body passed to `c.JSON`. -/
inductive Body where
  | error (msg : String)
  | bindError (err : BindError)
  | product (p : Product)
  | products (products : List Product) (count : Nat)
  | messageProduct (message : String) (product : Product)
  | messageID (message : String) (id : Int)
deriving DecidableEq

/-- The arguments of `c.JSON`. -/
structure Response where
  status : Nat
  body : Body
deriving DecidableEq

/-- The run of a handler: the response, the storage calls in the order they
were issued, and the storage state afterwards. -/
structure Run (σ : Type) where
  resp : Response
  calls : List DbCall
  state : σ

/-! ## `internal/handlers` -/

def selectAllQuery : String :=
  "\n\t\tSELECT id, name, price, stock, created_at, updated_at \n\t\tFROM products \n\t\tORDER BY created_at DESC\n\t"

def selectByIDQuery : String :=
  "\n\t\tSELECT id, name, price, stock, created_at, updated_at \n\t\tFROM products \n\t\tWHERE id = $1\n\t"

def insertQuery : String :=
  "\n\t\tINSERT INTO products (name, price, stock) \n\t\tVALUES ($1, $2, $3) \n\t\tRETURNING id, created_at, updated_at\n\t"

def existsQuery : String :=
  "SELECT EXISTS(SELECT 1 FROM products WHERE id = $1)"

def rereadQuery : String :=
  "SELECT id, name, price, stock, created_at, updated_at FROM products WHERE id = $1"

def deleteQuery : String :=
  "DELETE FROM products WHERE id = $1"

/-- The loop `for rows.Next() { ... rows.Scan ... append }` of
`GetAllProducts`: the first failing scan ends it. -/
def scanRows : List (Except DbError Product) → List Product →
    Except DbError (List Product)
  | [], products => .ok products
  | .error e :: _, _ => .error e
  | .ok product :: rest, products => scanRows rest (products ++ [product])

/-- The handler `ProductHandler.GetAllProducts`. -/
def GetAllProducts {σ : Type} (db : DB σ) (s : σ) : Run σ :=
  let r := db.Query s selectAllQuery []
  let calls := [DbCall.Query selectAllQuery []]
  match r.2 with
  | .error _ =>
    ⟨⟨StatusInternalServerError, .error "Failed to fetch products"⟩, calls, r.1⟩
  | .ok rows =>
    match scanRows rows.scans [] with
    | .error _ =>
      ⟨⟨StatusInternalServerError, .error "Failed to scan product"⟩, calls, r.1⟩
    | .ok products =>
      match rows.err with
      | some _ =>
        ⟨⟨StatusInternalServerError, .error "Error iterating rows"⟩, calls, r.1⟩
      | none =>
        ⟨⟨StatusOK, .products products products.length⟩, calls, r.1⟩

/-- The handler `ProductHandler.GetProductByID`. -/
def GetProductByID {σ : Type} (db : DB σ) (s : σ) (idParam : String) : Run σ :=
  match Atoi idParam with
  | none => ⟨⟨StatusBadRequest, .error "Invalid product ID"⟩, [], s⟩
  | some id =>
    let r := db.QueryRowProduct s selectByIDQuery [.int id]
    let calls := [DbCall.QueryRow selectByIDQuery [.int id]]
    match r.2 with
    | .error err =>
      if err = DbError.ErrNoRows then
        ⟨⟨StatusNotFound, .error "Product not found"⟩, calls, r.1⟩
      else
        ⟨⟨StatusInternalServerError, .error "Failed to fetch product"⟩, calls, r.1⟩
    | .ok product => ⟨⟨StatusOK, .product product⟩, calls, r.1⟩

/-- The handler `ProductHandler.CreateProduct`; `body` is what the JSON
decoder made of the request body. -/
def CreateProduct {σ : Type} (db : DB σ) (s : σ)
    (body : Except String CreateProductRequest) : Run σ :=
  match ShouldBindJSON CreateProductRequest.fields body with
  | .error err => ⟨⟨StatusBadRequest, .bindError err⟩, [], s⟩
  | .ok req =>
    let args := [Value.str req.Name, .float req.Price, .int req.Stock]
    let r := db.QueryRowReturning s insertQuery args
    let calls := [DbCall.QueryRow insertQuery args]
    match r.2 with
    | .error _ =>
      ⟨⟨StatusInternalServerError, .error "Failed to create product"⟩, calls, r.1⟩
    | .ok (id, createdAt, updatedAt) =>
      ⟨⟨StatusCreated, .messageProduct "Product created successfully"
          ⟨id, req.Name, req.Price, req.Stock, createdAt, updatedAt⟩⟩, calls, r.1⟩

/-- The block "Build dynamic update query" of `UpdateProduct`: the statement
text and its bound values. -/
def buildUpdate (req : UpdateProductRequest) (id : Int) : String × List Value :=
  let query := "UPDATE products SET updated_at = CURRENT_TIMESTAMP"
  let params : List Value := []
  let paramCount : Int := 1
  let (query, params, paramCount) :=
    match req.Name with
    | some name => (query ++ ", name = $" ++ Itoa paramCount, params ++ [Value.str name], paramCount + 1)
    | none => (query, params, paramCount)
  let (query, params, paramCount) :=
    match req.Price with
    | some price => (query ++ ", price = $" ++ Itoa paramCount, params ++ [Value.float price], paramCount + 1)
    | none => (query, params, paramCount)
  let (query, params, paramCount) :=
    match req.Stock with
    | some stock => (query ++ ", stock = $" ++ Itoa paramCount, params ++ [Value.int stock], paramCount + 1)
    | none => (query, params, paramCount)
  (query ++ " WHERE id = $" ++ Itoa paramCount, params ++ [Value.int id])

/-- The handler `ProductHandler.UpdateProduct`; `body` is what the JSON
decoder made of the request body. -/
def UpdateProduct {σ : Type} (db : DB σ) (s : σ) (idParam : String)
    (body : Except String UpdateProductRequest) : Run σ :=
  match Atoi idParam with
  | none => ⟨⟨StatusBadRequest, .error "Invalid product ID"⟩, [], s⟩
  | some id =>
    match ShouldBindJSON UpdateProductRequest.fields body with
    | .error err => ⟨⟨StatusBadRequest, .bindError err⟩, [], s⟩
    | .ok req =>
      let r1 := db.QueryRowBool s existsQuery [.int id]
      let calls1 := [DbCall.QueryRow existsQuery [.int id]]
      match r1.2 with
      | .error _ => ⟨⟨StatusNotFound, .error "Product not found"⟩, calls1, r1.1⟩
      | .ok false => ⟨⟨StatusNotFound, .error "Product not found"⟩, calls1, r1.1⟩
      | .ok true =>
        let stmt := buildUpdate req id
        let r2 := db.Exec r1.1 stmt.1 stmt.2
        let calls2 := calls1 ++ [DbCall.Exec stmt.1 stmt.2]
        match r2.2 with
        | .error _ =>
          ⟨⟨StatusInternalServerError, .error "Failed to update product"⟩, calls2, r2.1⟩
        | .ok rowsAffected =>
          if rowsAffected = 0 then
            ⟨⟨StatusNotFound, .error "Product not found"⟩, calls2, r2.1⟩
          else
            let r3 := db.QueryRowProduct r2.1 rereadQuery [.int id]
            let calls3 := calls2 ++ [DbCall.QueryRow rereadQuery [.int id]]
            match r3.2 with
            | .error _ =>
              ⟨⟨StatusInternalServerError, .error "Failed to fetch updated product"⟩,
                calls3, r3.1⟩
            | .ok product =>
              ⟨⟨StatusOK, .messageProduct "Product updated successfully" product⟩,
                calls3, r3.1⟩

/-- The handler `ProductHandler.DeleteProduct`. -/
def DeleteProduct {σ : Type} (db : DB σ) (s : σ) (idParam : String) : Run σ :=
  match Atoi idParam with
  | none => ⟨⟨StatusBadRequest, .error "Invalid product ID"⟩, [], s⟩
  | some id =>
    let r1 := db.QueryRowBool s existsQuery [.int id]
    let calls1 := [DbCall.QueryRow existsQuery [.int id]]
    match r1.2 with
    | .error _ => ⟨⟨StatusNotFound, .error "Product not found"⟩, calls1, r1.1⟩
    | .ok false => ⟨⟨StatusNotFound, .error "Product not found"⟩, calls1, r1.1⟩
    | .ok true =>
      let r2 := db.Exec r1.1 deleteQuery [.int id]
      let calls2 := calls1 ++ [DbCall.Exec deleteQuery [.int id]]
      match r2.2 with
      | .error _ =>
        ⟨⟨StatusInternalServerError, .error "Failed to delete product"⟩, calls2, r2.1⟩
      | .ok rowsAffected =>
        if rowsAffected = 0 then
          ⟨⟨StatusNotFound, .error "Product not found"⟩, calls2, r2.1⟩
        else
          ⟨⟨StatusOK, .messageID "Product deleted successfully" id⟩, calls2, r2.1⟩

/-! ## `cmd/api`: the product routes -/

/-- A request to one of the product routes registered in `main`. -/
inductive Request where
  | getAll
  | getByID (idParam : String)
  | create (body : Except String CreateProductRequest)
  | update (idParam : String) (body : Except String UpdateProductRequest)
  | delete (idParam : String)

/-- The dispatch of the router to the product handlers. -/
def handle {σ : Type} (db : DB σ) (s : σ) : Request → Run σ
  | .getAll => GetAllProducts db s
  | .getByID idParam => GetProductByID db s idParam
  | .create body => CreateProduct db s body
  | .update idParam body => UpdateProduct db s idParam body
  | .delete idParam => DeleteProduct db s idParam

/-! ## A scripted storage -/

/-- The outcomes a scripted storage gives, one per kind of call. -/
structure Script where
  rows : Except DbError Rows
  product : Except DbError Product
  found : Except DbError Bool
  returning : Except DbError (Int × Time × Time)
  affected : Except DbError Int

/-- A storage without state that answers every call with the scripted outcome
of its kind. -/
def scriptedDB (sc : Script) : DB Unit where
  Query := fun _ _ _ => ((), sc.rows)
  QueryRowProduct := fun _ _ _ => ((), sc.product)
  QueryRowBool := fun _ _ _ => ((), sc.found)
  QueryRowReturning := fun _ _ _ => ((), sc.returning)
  Exec := fun _ _ _ => ((), sc.affected)

/-- A sample stored product. -/
def pen : Product := ⟨1, "Pen", 2, 10, 5, 5⟩

/-- The script of a storage that holds no product and never fails. -/
def emptyScript : Script :=
  ⟨.ok ⟨[], none⟩, .error .ErrNoRows, .ok false, .ok (1, 5, 5), .ok 0⟩

/-- The script of a storage that holds `pen` and never fails. -/
def penScript : Script :=
  ⟨.ok ⟨[.ok pen], none⟩, .ok pen, .ok true, .ok (2, 6, 6), .ok 1⟩

/-- The script of a storage every call of which fails with the given error. -/
def failingScript (e : DbError) : Script :=
  ⟨.error e, .error e, .error e, .error e, .error e⟩


/-! ## The update statement, as specified -/

/-- The present fields of an update request in the fixed order name, price,
stock: each with its column and its value. -/
def presentFields (req : UpdateProductRequest) : List (String × Value) :=
  (req.Name.map fun name => ("name", Value.str name)).toList ++
  (req.Price.map fun price => ("price", Value.float price)).toList ++
  (req.Stock.map fun stock => ("stock", Value.int stock)).toList

/-- The assignments of the listed fields, numbered from `i` on: each field is
set from the placeholder that carries its number. -/
def assignments : List (String × Value) → Nat → List String
  | [], _ => []
  | (column, _) :: rest, i =>
    (column ++ " = $" ++ Itoa (i : Int)) :: assignments rest (i + 1)

/-- The statement the specification describes for a list of present fields:
the `updated_at` refresh first, then the fields' assignments with the
placeholders `$1`, `$2`, ... in order, and the next placeholder in `WHERE`. -/
def specStatement (fields : List (String × Value)) : String :=
  "UPDATE products SET " ++
    ", ".intercalate ("updated_at = CURRENT_TIMESTAMP" :: assignments fields 1) ++
    " WHERE id = $" ++ Itoa ((fields.length : Int) + 1)

/-- The bound values the specification describes: the present fields' values
in order, then the identifier. -/
def specParams (fields : List (String × Value)) (id : Int) : List Value :=
  fields.map Prod.snd ++ [Value.int id]

/-! ## Observing the storage -/

/-- The outcome of the existence probe that `UpdateProduct` and
`DeleteProduct` issue first. -/
def probeOutcome {σ : Type} (db : DB σ) (s : σ) (id : Int) : Except DbError Bool :=
  (db.QueryRowBool s existsQuery [.int id]).2

/-- The outcome of the `UPDATE` statement that `UpdateProduct` issues after
its probe. -/
def updateOutcome {σ : Type} (db : DB σ) (s : σ) (req : UpdateProductRequest) (id : Int) :
    Except DbError Int :=
  (db.Exec (db.QueryRowBool s existsQuery [.int id]).1
    (buildUpdate req id).1 (buildUpdate req id).2).2

/-- The outcome of the `DELETE` statement that `DeleteProduct` issues after
its probe. -/
def deleteOutcome {σ : Type} (db : DB σ) (s : σ) (id : Int) : Except DbError Int :=
  (db.Exec (db.QueryRowBool s existsQuery [.int id]).1 deleteQuery [.int id]).2

/-- Two outcomes of a storage call that differ at most in the error value:
the same result, or two errors that `P` relates. -/
def outcomesAgree {α : Type} (P : DbError → DbError → Prop) :
    Except DbError α → Except DbError α → Prop
  | .ok a, .ok b => a = b
  | .error e₁, .error e₂ => P e₁ e₂
  | _, _ => False

/-- Two row sets that differ at most in error values: row by row, and in the
value of `rows.Err()`. -/
def rowsAgree (P : DbError → DbError → Prop) (r₁ r₂ : Rows) : Prop :=
  List.Forall₂ (outcomesAgree P) r₁.scans r₂.scans ∧
  (match r₁.err, r₂.err with
   | none, none => True
   | some e₁, some e₂ => P e₁ e₂
   | _, _ => False)

/-- Two outcomes of `Query` that differ at most in error values. -/
def queryAgree (P : DbError → DbError → Prop) :
    Except DbError Rows → Except DbError Rows → Prop
  | .ok r₁, .ok r₂ => rowsAgree P r₁ r₂
  | .error e₁, .error e₂ => P e₁ e₂
  | _, _ => False

/-- Two storages that behave alike except for the error values of their
failing calls: on every call they move to the same state, and their outcomes
are the same result or two errors related by `P` (given the statement). -/
structure AgreeUpToErrors {σ : Type} (P : String → DbError → DbError → Prop)
    (db₁ db₂ : DB σ) : Prop where
  Query : ∀ s q a, (db₁.Query s q a).1 = (db₂.Query s q a).1 ∧
    queryAgree (P q) (db₁.Query s q a).2 (db₂.Query s q a).2
  QueryRowProduct : ∀ s q a, (db₁.QueryRowProduct s q a).1 = (db₂.QueryRowProduct s q a).1 ∧
    outcomesAgree (P q) (db₁.QueryRowProduct s q a).2 (db₂.QueryRowProduct s q a).2
  QueryRowBool : ∀ s q a, (db₁.QueryRowBool s q a).1 = (db₂.QueryRowBool s q a).1 ∧
    outcomesAgree (P q) (db₁.QueryRowBool s q a).2 (db₂.QueryRowBool s q a).2
  QueryRowReturning : ∀ s q a,
    (db₁.QueryRowReturning s q a).1 = (db₂.QueryRowReturning s q a).1 ∧
    outcomesAgree (P q) (db₁.QueryRowReturning s q a).2 (db₂.QueryRowReturning s q a).2
  Exec : ∀ s q a, (db₁.Exec s q a).1 = (db₂.Exec s q a).1 ∧
    outcomesAgree (P q) (db₁.Exec s q a).2 (db₂.Exec s q a).2

/-- No condition on the two error values. -/
def anyErrors : String → DbError → DbError → Prop :=
  fun _ _ _ => True

/-- The two errors of the `SELECT` of `GetProductByID` are both the sentinel
`sql.ErrNoRows` or both another error; no condition at any other statement. -/
def sameSentinelAtSelectByID : String → DbError → DbError → Prop :=
  fun q e₁ e₂ => q = selectByIDQuery → (e₁ = DbError.ErrNoRows ↔ e₂ = DbError.ErrNoRows)


/-! ## The update-clause builder -/

/-- C1: for every request and id, the statement `UpdateProduct` builds lists
the `updated_at` refresh and then the present fields in the order name, price,
stock with consecutive placeholders from `$1`, the `WHERE` clause takes the
next placeholder, and the bound values are the present fields' values in that
order followed by the id. -/
theorem buildUpdate_eq_spec (req : UpdateProductRequest) (id : Int) :
    buildUpdate req id =
      (specStatement (presentFields req), specParams (presentFields req) id) := by
  obtain ⟨name, price, stock⟩ := req
  cases name <;> cases price <;> cases stock <;> rfl

/-- C2: with no field present the statement is exactly the `updated_at`
refresh with `WHERE id = $1`, and the only bound value is the id. -/
theorem buildUpdate_no_fields (id : Int) :
    buildUpdate ⟨none, none, none⟩ id =
      ("UPDATE products SET updated_at = CURRENT_TIMESTAMP WHERE id = $1", [Value.int id]) ∧
    (buildUpdate ⟨none, none, none⟩ id).2.dropLast = [] := by
  constructor <;> rfl

/-- C3: two requests with the same present fields yield the same statement
text, whatever their values and ids. -/
theorem buildUpdate_text_independent_of_values (req₁ req₂ : UpdateProductRequest)
    (id₁ id₂ : Int)
    (hName : req₁.Name.isSome = req₂.Name.isSome)
    (hPrice : req₁.Price.isSome = req₂.Price.isSome)
    (hStock : req₁.Stock.isSome = req₂.Stock.isSome) :
    (buildUpdate req₁ id₁).1 = (buildUpdate req₂ id₂).1 := by
  obtain ⟨n₁, p₁, k₁⟩ := req₁
  obtain ⟨n₂, p₂, k₂⟩ := req₂
  cases n₁ <;> cases n₂ <;> simp at hName <;>
  cases p₁ <;> cases p₂ <;> simp at hPrice <;>
  cases k₁ <;> cases k₂ <;> simp at hStock <;> rfl

theorem buildUpdate_text_independent_of_values_witness :
    (buildUpdate ⟨some "Pen", none, some 3⟩ 1).1 =
      (buildUpdate ⟨some "x; DROP TABLE products", none, some 0⟩ 42).1 :=
  buildUpdate_text_independent_of_values _ _ 1 42 rfl rfl rfl

/-! ## Rejected requests -/

/-- C10: a run of any product handler that ends with 400 issued no storage
call and left the storage state as it was. -/
theorem bad_request_issues_no_storage_call {σ : Type} (db : DB σ) (s : σ) (r : Request)
    (h : (handle db s r).resp.status = StatusBadRequest) :
    (handle db s r).calls = [] ∧ (handle db s r).state = s := by
  cases r with
  | getAll =>
    simp only [handle, GetAllProducts] at h ⊢
    split at h <;> (try split at h) <;> (try split at h) <;> simp at h
  | getByID idParam =>
    simp only [handle, GetProductByID] at h ⊢
    split <;> simp_all
    split at h <;> (try split at h) <;> simp at h
  | create body =>
    simp only [handle, CreateProduct] at h ⊢
    split <;> simp_all
    split at h <;> simp at h
  | update idParam body =>
    simp only [handle, UpdateProduct] at h ⊢
    split <;> simp_all
    split <;> simp_all
    split at h <;> (try split at h) <;> (try split at h) <;> (try split at h) <;> simp at h
  | delete idParam =>
    simp only [handle, DeleteProduct] at h ⊢
    split <;> simp_all
    split at h <;> (try split at h) <;> (try split at h) <;> simp at h

theorem bad_request_issues_no_storage_call_witness :
    (handle (scriptedDB penScript) () (.getByID "abc")).calls = [] ∧
    (handle (scriptedDB penScript) () (.getByID "abc")).state = () :=
  bad_request_issues_no_storage_call (scriptedDB penScript) () (.getByID "abc") (by decide)


/-! ## Validation -/

theorem traverse_create_name (name : String) :
    traverseField (.value (.str name)) [.required, .min 1, .max 100] = none ↔
      (1 ≤ name.length ∧ name.length ≤ 100) := by
  simp [traverseField, runTags, checkTag, hasValue, FieldVal.isZero]
  split_ifs <;> simp_all

theorem traverse_create_price (price : ℚ) :
    traverseField (.value (.float price)) [.required, .gt 0] = none ↔ 0 < price := by
  simp [traverseField, runTags, checkTag, hasValue, FieldVal.isZero]
  split_ifs <;> simp_all

theorem traverse_create_stock (stock : Int) :
    traverseField (.value (.int stock)) [.gte 0] = none ↔ 0 ≤ stock := by
  simp [traverseField, runTags, checkTag]

theorem traverse_update_name (name : Option String) :
    traverseField (.ptr (name.map .str)) [.omitempty, .min 1, .max 100] = none ↔
      ∀ n, name = some n → (1 ≤ n.length ∧ n.length ≤ 100) := by
  cases name <;> simp [traverseField, runTags, checkTag, hasValue, FieldVal.isZero]
  split_ifs <;> simp_all

theorem traverse_update_price (price : Option ℚ) :
    traverseField (.ptr (price.map .float)) [.omitempty, .gt 0] = none ↔
      ∀ p, price = some p → 0 < p := by
  cases price <;> simp [traverseField, runTags, checkTag, hasValue, FieldVal.isZero]

theorem traverse_update_stock (stock : Option Int) :
    traverseField (.ptr (stock.map .int)) [.omitempty, .gte 0] = none ↔
      ∀ k, stock = some k → 0 ≤ k := by
  cases stock <;> simp [traverseField, runTags, checkTag, hasValue, FieldVal.isZero]

/-- Validation of three fields passes exactly when each field passes. -/
theorem validateStruct_three (a b c : String × Field × List Tag) :
    validateStruct [a, b, c] = [] ↔
      traverseField a.2.1 a.2.2 = none ∧ traverseField b.2.1 b.2.2 = none ∧
        traverseField c.2.1 c.2.2 = none := by
  obtain ⟨na, fa, ta⟩ := a
  obtain ⟨nb, fb, tb⟩ := b
  obtain ⟨nc, fc, tc⟩ := c
  simp only [validateStruct]
  cases traverseField fa ta <;> cases traverseField fb tb <;>
    cases traverseField fc tc <;> simp

/-- A decoded create request binds exactly when it satisfies its tags. -/
theorem bind_create_ok_iff (req : CreateProductRequest) :
    ShouldBindJSON CreateProductRequest.fields (.ok req) = .ok req ↔
      (1 ≤ req.Name.length ∧ req.Name.length ≤ 100) ∧ 0 < req.Price ∧ 0 ≤ req.Stock := by
  have hv := validateStruct_three
    ("Name", .value (.str req.Name), [.required, .min 1, .max 100])
    ("Price", .value (.float req.Price), [.required, .gt 0])
    ("Stock", .value (.int req.Stock), [.gte 0])
  simp only [traverse_create_name, traverse_create_price, traverse_create_stock] at hv
  rw [← hv]
  simp only [ShouldBindJSON, CreateProductRequest.fields]
  split <;> simp_all

/-- A decoded update request binds exactly when its present fields satisfy
their tags. -/
theorem bind_update_ok_iff (req : UpdateProductRequest) :
    ShouldBindJSON UpdateProductRequest.fields (.ok req) = .ok req ↔
      (∀ n, req.Name = some n → (1 ≤ n.length ∧ n.length ≤ 100)) ∧
      (∀ p, req.Price = some p → 0 < p) ∧ (∀ k, req.Stock = some k → 0 ≤ k) := by
  have hv := validateStruct_three
    ("Name", .ptr (req.Name.map .str), [.omitempty, .min 1, .max 100])
    ("Price", .ptr (req.Price.map .float), [.omitempty, .gt 0])
    ("Stock", .ptr (req.Stock.map .int), [.omitempty, .gte 0])
  simp only [traverse_update_name, traverse_update_price, traverse_update_stock] at hv
  rw [← hv]
  simp only [ShouldBindJSON, UpdateProductRequest.fields]
  split <;> simp_all

/-- The status of `CreateProduct` is 400 exactly when binding fails. -/
theorem createProduct_status_bad_iff {σ : Type} (db : DB σ) (s : σ)
    (body : Except String CreateProductRequest) :
    (CreateProduct db s body).resp.status = StatusBadRequest ↔
      ∃ err, ShouldBindJSON CreateProductRequest.fields body = .error err := by
  simp only [CreateProduct]
  split
  · simp_all
  · split <;> simp_all

/-- With a well-formed id, the status of `UpdateProduct` is 400 exactly when
binding fails. -/
theorem updateProduct_status_bad_iff {σ : Type} (db : DB σ) (s : σ) (idParam : String)
    (id : Int) (hid : Atoi idParam = some id) (body : Except String UpdateProductRequest) :
    (UpdateProduct db s idParam body).resp.status = StatusBadRequest ↔
      ∃ err, ShouldBindJSON UpdateProductRequest.fields body = .error err := by
  simp only [UpdateProduct, hid]
  split
  · simp_all
  · split <;> (try split) <;> (try split) <;> (try split) <;> simp_all

/-- Binding a decoded body fails exactly when it does not return that body. -/
theorem bind_error_iff {α : Type} (fields : α → List (String × Field × List Tag))
    (req : α) :
    (∃ err, ShouldBindJSON fields (.ok req) = .error err) ↔
      ¬ ShouldBindJSON fields (.ok req) = .ok req := by
  simp only [ShouldBindJSON]
  split <;> simp_all

/-- C7: a decoded create request is rejected with 400 exactly when its name is
empty or longer than 100 characters, its price is not above zero or its stock
is negative; a body that omits stock decodes to stock 0, which never causes
rejection and is what the insert binds; an explicit stock 0 is accepted. -/
theorem createProduct_rejects_iff {σ : Type} (db : DB σ) (s : σ)
    (req : CreateProductRequest) :
    ((CreateProduct db s (.ok req)).resp.status = StatusBadRequest ↔
      (req.Name.length = 0 ∨ 100 < req.Name.length ∨ ¬ 0 < req.Price ∨ req.Stock < 0)) ∧
    ((CreateProduct db s (.ok (decodeCreate ⟨some req.Name, some req.Price, none⟩))).resp.status
        = StatusBadRequest ↔
      (req.Name.length = 0 ∨ 100 < req.Name.length ∨ ¬ 0 < req.Price)) ∧
    ((CreateProduct db s (.ok (decodeCreate ⟨some req.Name, some req.Price, none⟩))).resp.status
        ≠ StatusBadRequest →
      (CreateProduct db s (.ok (decodeCreate ⟨some req.Name, some req.Price, none⟩))).calls =
        [DbCall.QueryRow insertQuery [.str req.Name, .float req.Price, .int 0]]) ∧
    ((CreateProduct db s (.ok ⟨req.Name, req.Price, 0⟩)).resp.status = StatusBadRequest ↔
      (req.Name.length = 0 ∨ 100 < req.Name.length ∨ ¬ 0 < req.Price)) := by
  have key : ∀ r : CreateProductRequest,
      ((CreateProduct db s (.ok r)).resp.status = StatusBadRequest ↔
        (r.Name.length = 0 ∨ 100 < r.Name.length ∨ ¬ 0 < r.Price ∨ r.Stock < 0)) := by
    intro r
    rw [createProduct_status_bad_iff, bind_error_iff, bind_create_ok_iff]
    constructor
    · intro h
      by_contra hc
      push_neg at hc
      exact h ⟨⟨by omega, by omega⟩, hc.2.2.1, hc.2.2.2⟩
    · rintro h ⟨⟨h1, h2⟩, h3, h4⟩
      rcases h with h | h | h | h
      · omega
      · omega
      · exact h h3
      · omega
  refine ⟨key req, ?_, ?_, ?_⟩
  · rw [key]; simp [decodeCreate]
  · intro h
    rw [Ne, createProduct_status_bad_iff, bind_error_iff, not_not] at h
    simp only [CreateProduct, h]
    split <;> simp [decodeCreate]
  · rw [key]; simp

/-- C8: with a well-formed id, an update request is rejected with 400 exactly
when a present name is empty or longer than 100 characters, a present price is
not above zero, or a present stock is negative; the request with no field
present is not rejected and, once the row is found, the statement executed is
the `updated_at` refresh alone. -/
theorem updateProduct_rejects_iff {σ : Type} (db : DB σ) (s : σ) (idParam : String)
    (id : Int) (req : UpdateProductRequest) (hid : Atoi idParam = some id) :
    ((UpdateProduct db s idParam (.ok req)).resp.status = StatusBadRequest ↔
      ((∃ n, req.Name = some n ∧ (n.length = 0 ∨ 100 < n.length)) ∨
       (∃ p, req.Price = some p ∧ ¬ 0 < p) ∨
       (∃ k, req.Stock = some k ∧ k < 0))) ∧
    (UpdateProduct db s idParam (.ok ⟨none, none, none⟩)).resp.status ≠ StatusBadRequest ∧
    ((db.QueryRowBool s existsQuery [.int id]).2 = .ok true →
      (UpdateProduct db s idParam (.ok ⟨none, none, none⟩)).calls.take 2 =
        [DbCall.QueryRow existsQuery [.int id],
         DbCall.Exec "UPDATE products SET updated_at = CURRENT_TIMESTAMP WHERE id = $1"
           [.int id]]) := by
  have key : ∀ r : UpdateProductRequest,
      ((UpdateProduct db s idParam (.ok r)).resp.status = StatusBadRequest ↔
        ((∃ n, r.Name = some n ∧ (n.length = 0 ∨ 100 < n.length)) ∨
         (∃ p, r.Price = some p ∧ ¬ 0 < p) ∨
         (∃ k, r.Stock = some k ∧ k < 0))) := by
    intro r
    rw [updateProduct_status_bad_iff db s idParam id hid, bind_error_iff, bind_update_ok_iff]
    constructor
    · intro h
      by_contra hc
      push_neg at hc
      refine h ⟨fun n hn => ?_, fun p hp => hc.2.1 p hp, fun k hk => hc.2.2 k hk⟩
      have := hc.1 n hn
      omega
    · rintro h ⟨h1, h2, h3⟩
      rcases h with ⟨n, hn, h⟩ | ⟨p, hp, h⟩ | ⟨k, hk, h⟩
      · have := h1 n hn
        omega
      · exact h (h2 p hp)
      · have := h3 k hk
        omega
  refine ⟨key req, ?_, ?_⟩
  · rw [Ne, key]; simp
  · intro hp
    have hb : ShouldBindJSON UpdateProductRequest.fields (.ok ⟨none, none, none⟩) =
        .ok ⟨none, none, none⟩ := by
      rw [bind_update_ok_iff]; simp
    have hq : buildUpdate ⟨none, none, none⟩ id =
        ("UPDATE products SET updated_at = CURRENT_TIMESTAMP WHERE id = $1", [Value.int id]) :=
      rfl
    simp only [UpdateProduct, hid, hb, hp, hq]
    split <;> (try split) <;> (try split) <;> simp

theorem updateProduct_rejects_iff_witness :
    ((UpdateProduct (scriptedDB penScript) () "1" (.ok ⟨none, some 0, some 0⟩)).resp.status
        = StatusBadRequest ↔
      ((∃ n, (none : Option String) = some n ∧ (n.length = 0 ∨ 100 < n.length)) ∨
       (∃ p, some (0 : ℚ) = some p ∧ ¬ 0 < p) ∨
       (∃ k, some (0 : Int) = some k ∧ k < 0))) ∧
    (UpdateProduct (scriptedDB penScript) () "1" (.ok ⟨none, none, none⟩)).resp.status
      ≠ StatusBadRequest ∧
    (((scriptedDB penScript).QueryRowBool () existsQuery [.int 1]).2 = .ok true →
      (UpdateProduct (scriptedDB penScript) () "1" (.ok ⟨none, none, none⟩)).calls.take 2 =
        [DbCall.QueryRow existsQuery [.int 1],
         DbCall.Exec "UPDATE products SET updated_at = CURRENT_TIMESTAMP WHERE id = $1"
           [.int 1]]) :=
  updateProduct_rejects_iff (scriptedDB penScript) () "1" 1 ⟨none, some 0, some 0⟩ (by decide)

/-! ## Absent rows and failing storage -/

/-- C4: with a well-formed id and a body that passes validation, whenever the
existence probe answers false, or answers true and the statement then affects
zero rows, `UpdateProduct` and `DeleteProduct` respond 404; when the probe
answers false the probe is the only storage call. -/
theorem absent_row_is_not_found {σ : Type} (db : DB σ) (s : σ) (idParam : String)
    (id : Int) (req : UpdateProductRequest) (hid : Atoi idParam = some id)
    (hreq : ShouldBindJSON UpdateProductRequest.fields (.ok req) = .ok req) :
    ((probeOutcome db s id = .ok false ∨
        (probeOutcome db s id = .ok true ∧ updateOutcome db s req id = .ok 0)) →
      (UpdateProduct db s idParam (.ok req)).resp.status = StatusNotFound) ∧
    (probeOutcome db s id = .ok false →
      (UpdateProduct db s idParam (.ok req)).calls =
        [DbCall.QueryRow existsQuery [.int id]]) ∧
    ((probeOutcome db s id = .ok false ∨
        (probeOutcome db s id = .ok true ∧ deleteOutcome db s id = .ok 0)) →
      (DeleteProduct db s idParam).resp.status = StatusNotFound) ∧
    (probeOutcome db s id = .ok false →
      (DeleteProduct db s idParam).calls = [DbCall.QueryRow existsQuery [.int id]]) := by
  simp only [probeOutcome, updateOutcome, deleteOutcome]
  refine ⟨?_, ?_, ?_, ?_⟩
  · rintro (h | ⟨h1, h2⟩)
    · simp [UpdateProduct, hid, hreq, h]
    · simp [UpdateProduct, hid, hreq, h1, h2]
  · intro h
    simp [UpdateProduct, hid, hreq, h]
  · rintro (h | ⟨h1, h2⟩)
    · simp [DeleteProduct, hid, h]
    · simp [DeleteProduct, hid, h1, h2]
  · intro h
    simp [DeleteProduct, hid, h]

theorem absent_row_is_not_found_witness :
    (UpdateProduct (scriptedDB emptyScript) () "7" (.ok ⟨some "Pen", none, none⟩)).resp.status
      = StatusNotFound ∧
    (UpdateProduct (scriptedDB emptyScript) () "7" (.ok ⟨some "Pen", none, none⟩)).calls =
      [DbCall.QueryRow existsQuery [.int 7]] ∧
    (DeleteProduct (scriptedDB emptyScript) () "7").resp.status = StatusNotFound ∧
    (DeleteProduct (scriptedDB emptyScript) () "7").calls =
      [DbCall.QueryRow existsQuery [.int 7]] :=
  have h := absent_row_is_not_found (scriptedDB emptyScript) () "7" 7
    ⟨some "Pen", none, none⟩ (by decide) rfl
  ⟨h.1 (Or.inl rfl), h.2.1 rfl, h.2.2.1 (Or.inl rfl), h.2.2.2 rfl⟩

/-- C5: a failing existence probe makes `UpdateProduct` and `DeleteProduct`
respond 404 "Product not found", whatever the error; the statement is not
issued. -/
theorem failing_probe_is_not_found {σ : Type} (db : DB σ) (s : σ) (idParam : String)
    (id : Int) (req : UpdateProductRequest) (e : DbError) (hid : Atoi idParam = some id)
    (hreq : ShouldBindJSON UpdateProductRequest.fields (.ok req) = .ok req)
    (hprobe : probeOutcome db s id = .error e) :
    (UpdateProduct db s idParam (.ok req)).resp =
      ⟨StatusNotFound, .error "Product not found"⟩ ∧
    (DeleteProduct db s idParam).resp = ⟨StatusNotFound, .error "Product not found"⟩ := by
  simp only [probeOutcome] at hprobe
  constructor
  · simp [UpdateProduct, hid, hreq, hprobe]
  · simp [DeleteProduct, hid, hprobe]

theorem failing_probe_is_not_found_witness :
    (UpdateProduct (scriptedDB (failingScript (.other "connection refused"))) () "1"
        (.ok ⟨some "Pen", none, none⟩)).resp =
      ⟨StatusNotFound, .error "Product not found"⟩ ∧
    (DeleteProduct (scriptedDB (failingScript (.other "connection refused"))) () "1").resp =
      ⟨StatusNotFound, .error "Product not found"⟩ :=
  failing_probe_is_not_found (scriptedDB (failingScript (.other "connection refused"))) ()
    "1" 1 ⟨some "Pen", none, none⟩ (.other "connection refused") (by decide) rfl rfl

/-! ## The id path parameter -/

/-- C6, as stated, fails: the ids "0" and "-1" are not positive integers, yet
on a storage that holds no product `GetProductByID`, `UpdateProduct` and
`DeleteProduct` answer them with 404, not 400, after calling the storage. -/
theorem nonpositive_id_reaches_storage :
    Atoi "0" = some 0 ∧ Atoi "-1" = some (-1) ∧
    (GetProductByID (scriptedDB emptyScript) () "0").resp.status = StatusNotFound ∧
    (GetProductByID (scriptedDB emptyScript) () "0").calls =
      [DbCall.QueryRow selectByIDQuery [.int 0]] ∧
    (UpdateProduct (scriptedDB emptyScript) () "-1" (.ok ⟨none, none, none⟩)).resp.status
      = StatusNotFound ∧
    (DeleteProduct (scriptedDB emptyScript) () "-1").resp.status = StatusNotFound := by
  decide

/-- C6, amended: an id parameter that `strconv.Atoi` rejects (such as the
empty string, non-numeric text or a digit string out of the `int64` range) is
answered with 400 by `GetProductByID`, `UpdateProduct` and `DeleteProduct`
without any storage call; `GetProductByID` and `DeleteProduct` answer 400 for
no other id. -/
theorem unparseable_id_is_bad_request {σ : Type} (db : DB σ) (s : σ) (idParam : String)
    (body : Except String UpdateProductRequest) :
    ((GetProductByID db s idParam).resp.status = StatusBadRequest ↔ Atoi idParam = none) ∧
    ((DeleteProduct db s idParam).resp.status = StatusBadRequest ↔ Atoi idParam = none) ∧
    (Atoi idParam = none →
      (GetProductByID db s idParam).calls = [] ∧
      (UpdateProduct db s idParam body).resp.status = StatusBadRequest ∧
      (UpdateProduct db s idParam body).calls = [] ∧
      (DeleteProduct db s idParam).calls = []) ∧
    Atoi "" = none ∧ Atoi "abc" = none ∧ Atoi "1.5" = none ∧
    Atoi "9223372036854775808" = none := by
  refine ⟨?_, ?_, ?_, by decide, by decide, by decide, by decide⟩
  · simp only [GetProductByID]
    split
    · simp_all
    · split <;> (try split) <;> simp_all
  · simp only [DeleteProduct]
    split
    · simp_all
    · split <;> (try split) <;> (try split) <;> simp_all
  · intro h
    simp [GetProductByID, UpdateProduct, DeleteProduct, h]

/-! ## Error values and responses -/

/-- The scan loop on two row lists that differ at most in error values ends
alike: with the same products, or with an error in both. -/
theorem scanRows_agree (P : DbError → DbError → Prop)
    (l₁ l₂ : List (Except DbError Product)) (h : List.Forall₂ (outcomesAgree P) l₁ l₂) :
    ∀ acc, (∃ ps, scanRows l₁ acc = .ok ps ∧ scanRows l₂ acc = .ok ps) ∨
      (∃ e₁ e₂, scanRows l₁ acc = .error e₁ ∧ scanRows l₂ acc = .error e₂) := by
  induction h with
  | nil => intro acc; exact Or.inl ⟨acc, rfl, rfl⟩
  | @cons a b l₁ l₂ hab _ ih =>
    intro acc
    cases a <;> cases b <;> simp only [outcomesAgree] at hab
    · exact Or.inr ⟨_, _, rfl, rfl⟩
    · subst hab
      simpa only [scanRows] using ih _

theorem getAllProducts_agree {σ : Type} (P : String → DbError → DbError → Prop)
    (db₁ db₂ : DB σ) (h : AgreeUpToErrors P db₁ db₂) (s : σ) :
    (GetAllProducts db₁ s).resp = (GetAllProducts db₂ s).resp := by
  obtain ⟨_, ho⟩ := h.Query s selectAllQuery []
  simp only [GetAllProducts]
  revert ho
  generalize (db₁.Query s selectAllQuery []).2 = o₁
  generalize (db₂.Query s selectAllQuery []).2 = o₂
  intro ho
  cases o₁ <;> cases o₂ <;> simp only [queryAgree] at ho
  · rfl
  · rename_i r₁ r₂
    obtain ⟨hscans, herr⟩ := ho
    rcases scanRows_agree _ _ _ hscans [] with ⟨ps, h1, h2⟩ | ⟨e₁, e₂, h1, h2⟩
    · simp only [h1, h2]
      revert herr
      cases r₁.err <;> cases r₂.err <;> simp
    · simp only [h1, h2]

theorem getProductByID_agree {σ : Type} (db₁ db₂ : DB σ)
    (h : AgreeUpToErrors sameSentinelAtSelectByID db₁ db₂) (s : σ) (idParam : String) :
    (GetProductByID db₁ s idParam).resp = (GetProductByID db₂ s idParam).resp := by
  simp only [GetProductByID]
  cases Atoi idParam with
  | none => rfl
  | some id =>
    obtain ⟨_, ho⟩ := h.QueryRowProduct s selectByIDQuery [.int id]
    simp only
    revert ho
    generalize (db₁.QueryRowProduct s selectByIDQuery [.int id]).2 = o₁
    generalize (db₂.QueryRowProduct s selectByIDQuery [.int id]).2 = o₂
    intro ho
    cases o₁ <;> cases o₂ <;> simp only [outcomesAgree, sameSentinelAtSelectByID] at ho
    · have hiff := ho trivial
      rename_i e₁ e₂
      by_cases h1 : e₁ = DbError.ErrNoRows
      · simp [h1, hiff.1 h1]
      · have h2 : ¬ e₂ = DbError.ErrNoRows := fun h2 => h1 (hiff.2 h2)
        simp [h1, h2]
    · subst ho; rfl

theorem createProduct_agree {σ : Type} (P : String → DbError → DbError → Prop)
    (db₁ db₂ : DB σ) (h : AgreeUpToErrors P db₁ db₂) (s : σ)
    (body : Except String CreateProductRequest) :
    (CreateProduct db₁ s body).resp = (CreateProduct db₂ s body).resp := by
  simp only [CreateProduct]
  cases ShouldBindJSON CreateProductRequest.fields body with
  | error err => rfl
  | ok req =>
    obtain ⟨_, ho⟩ := h.QueryRowReturning s insertQuery
      [Value.str req.Name, .float req.Price, .int req.Stock]
    simp only
    revert ho
    generalize (db₁.QueryRowReturning s insertQuery
      [Value.str req.Name, .float req.Price, .int req.Stock]).2 = o₁
    generalize (db₂.QueryRowReturning s insertQuery
      [Value.str req.Name, .float req.Price, .int req.Stock]).2 = o₂
    intro ho
    cases o₁ <;> cases o₂ <;> simp only [outcomesAgree] at ho
    · rfl
    · subst ho; rfl

theorem updateProduct_agree {σ : Type} (P : String → DbError → DbError → Prop)
    (db₁ db₂ : DB σ) (h : AgreeUpToErrors P db₁ db₂) (s : σ) (idParam : String)
    (body : Except String UpdateProductRequest) :
    (UpdateProduct db₁ s idParam body).resp = (UpdateProduct db₂ s idParam body).resp := by
  simp only [UpdateProduct]
  cases Atoi idParam with
  | none => rfl
  | some id =>
    cases ShouldBindJSON UpdateProductRequest.fields body with
    | error err => rfl
    | ok req =>
      obtain ⟨hs1, ho1⟩ := h.QueryRowBool s existsQuery [.int id]
      simp only
      rw [hs1]
      revert ho1
      generalize (db₁.QueryRowBool s existsQuery [.int id]).2 = o₁
      generalize (db₂.QueryRowBool s existsQuery [.int id]).2 = o₂
      generalize (db₂.QueryRowBool s existsQuery [.int id]).1 = t₁
      intro ho1
      cases o₁ <;> cases o₂ <;> simp only [outcomesAgree] at ho1
      · rfl
      · subst ho1
        rename_i found
        cases found
        · rfl
        · obtain ⟨hs2, ho2⟩ := h.Exec t₁ (buildUpdate req id).1 (buildUpdate req id).2
          simp only
          rw [hs2]
          revert ho2
          generalize (db₁.Exec t₁ (buildUpdate req id).1 (buildUpdate req id).2).2 = p₁
          generalize (db₂.Exec t₁ (buildUpdate req id).1 (buildUpdate req id).2).2 = p₂
          generalize (db₂.Exec t₁ (buildUpdate req id).1 (buildUpdate req id).2).1 = t₂
          intro ho2
          cases p₁ <;> cases p₂ <;> simp only [outcomesAgree] at ho2
          · rfl
          · subst ho2
            rename_i n
            by_cases hn : n = 0
            · simp [hn]
            · obtain ⟨_, ho3⟩ := h.QueryRowProduct t₂ rereadQuery [.int id]
              simp only [hn, if_false]
              revert ho3
              generalize (db₁.QueryRowProduct t₂ rereadQuery [.int id]).2 = q₁
              generalize (db₂.QueryRowProduct t₂ rereadQuery [.int id]).2 = q₂
              intro ho3
              cases q₁ <;> cases q₂ <;> simp only [outcomesAgree] at ho3
              · rfl
              · subst ho3; rfl

theorem deleteProduct_agree {σ : Type} (P : String → DbError → DbError → Prop)
    (db₁ db₂ : DB σ) (h : AgreeUpToErrors P db₁ db₂) (s : σ) (idParam : String) :
    (DeleteProduct db₁ s idParam).resp = (DeleteProduct db₂ s idParam).resp := by
  simp only [DeleteProduct]
  cases Atoi idParam with
  | none => rfl
  | some id =>
    obtain ⟨hs1, ho1⟩ := h.QueryRowBool s existsQuery [.int id]
    simp only
    rw [hs1]
    revert ho1
    generalize (db₁.QueryRowBool s existsQuery [.int id]).2 = o₁
    generalize (db₂.QueryRowBool s existsQuery [.int id]).2 = o₂
    generalize (db₂.QueryRowBool s existsQuery [.int id]).1 = t₁
    intro ho1
    cases o₁ <;> cases o₂ <;> simp only [outcomesAgree] at ho1
    · rfl
    · subst ho1
      rename_i found
      cases found
      · rfl
      · obtain ⟨_, ho2⟩ := h.Exec t₁ deleteQuery [.int id]
        simp only
        revert ho2
        generalize (db₁.Exec t₁ deleteQuery [.int id]).2 = p₁
        generalize (db₂.Exec t₁ deleteQuery [.int id]).2 = p₂
        intro ho2
        cases p₁ <;> cases p₂ <;> simp only [outcomesAgree] at ho2
        · rfl
        · subst ho2
          rename_i n
          by_cases hn : n = 0 <;> simp [hn]

/-- Two scripted storages every call of which fails, with two errors that `P`
relates at every statement, differ at most in error values. -/
theorem scripted_agree (P : String → DbError → DbError → Prop) (e₁ e₂ : DbError)
    (h : ∀ q, P q e₁ e₂) :
    AgreeUpToErrors P (scriptedDB (failingScript e₁)) (scriptedDB (failingScript e₂)) :=
  ⟨fun _ q _ => ⟨rfl, h q⟩, fun _ q _ => ⟨rfl, h q⟩, fun _ q _ => ⟨rfl, h q⟩,
    fun _ q _ => ⟨rfl, h q⟩, fun _ q _ => ⟨rfl, h q⟩⟩

/-- C9, as stated, fails: two storages that differ only in the error value of
the failing `SELECT` of `GetProductByID` get different responses, 404 for the
sentinel `sql.ErrNoRows` and 500 for another error. -/
theorem getProductByID_depends_on_error_value :
    AgreeUpToErrors anyErrors (scriptedDB (failingScript .ErrNoRows))
      (scriptedDB (failingScript (.other "connection refused"))) ∧
    (handle (scriptedDB (failingScript .ErrNoRows)) () (.getByID "1")).resp =
      ⟨StatusNotFound, .error "Product not found"⟩ ∧
    (handle (scriptedDB (failingScript (.other "connection refused"))) () (.getByID "1")).resp =
      ⟨StatusInternalServerError, .error "Failed to fetch product"⟩ :=
  ⟨scripted_agree anyErrors _ _ (fun _ => trivial), by decide, by decide⟩

/-- C9, amended: two storages that differ only in the error values of their
failing calls get the same status and the same body from every product
handler, provided the two errors of the `SELECT` of `GetProductByID` are both
`sql.ErrNoRows` or both another error. -/
theorem response_independent_of_error_value {σ : Type} (db₁ db₂ : DB σ) (s : σ)
    (r : Request) (h : AgreeUpToErrors sameSentinelAtSelectByID db₁ db₂) :
    (handle db₁ s r).resp = (handle db₂ s r).resp := by
  cases r with
  | getAll => exact getAllProducts_agree _ db₁ db₂ h s
  | getByID idParam => exact getProductByID_agree db₁ db₂ h s idParam
  | create body => exact createProduct_agree _ db₁ db₂ h s body
  | update idParam body => exact updateProduct_agree _ db₁ db₂ h s idParam body
  | delete idParam => exact deleteProduct_agree _ db₁ db₂ h s idParam

theorem response_independent_of_error_value_witness :
    (handle (scriptedDB (failingScript (.other "connection refused"))) ()
        (.create (.ok ⟨"Pen", 2, 10⟩))).resp =
      (handle (scriptedDB (failingScript (.other "pq: deadlock detected"))) ()
        (.create (.ok ⟨"Pen", 2, 10⟩))).resp :=
  response_independent_of_error_value _ _ () (.create (.ok ⟨"Pen", 2, 10⟩))
    (scripted_agree sameSentinelAtSelectByID _ _ (fun _ _ => by simp))

end CodeWithUmam
